import Mathlib

/-!
Verification model of `maps_sio_archive_search.py` (MAPS SiO archive search).

The script is a single-file pandas pipeline:
query ALMA archive → harmonize columns → match SiO(v=0) transitions against
spectral-window frequency ranges → build per-SPW and per-MOUS tables → save.

Modelling conventions:
* Python floats are modelled as exact rationals (ℚ).  Every float literal in
  the program is a short decimal, so its IEEE-754 value is uniquely determined
  by the decimal, comparisons of the modelled rationals agree with the float
  comparisons performed by pandas, and Python's `str()` of such a float prints
  the shortest round-tripping decimal, which is the literal with trailing
  zeros stripped (integral floats print with a trailing `.0`).  `pyFloatStr`
  below reproduces that printing for finite-decimal rationals.
* `NaN` cells (pandas missing values) are modelled as `Option` with `none`
  standing for NaN; aggregation `min` skips NaN like pandas (`skipna=True`).
* Python's `sorted` (stable, ascending, code-point order on strings) is
  modelled by the stable insertion sort `sortBy` with the code-point order
  `pyStrLe`.  pandas `sort_values` / sorted `groupby` keys are deterministic;
  they are modelled with the same stable sort (tie order among fully equal
  sort keys is not observable in any property proved here).
* DataFrames appear in two forms: a typed row model (`ObsRecord`,
  `MatchRecord`, `MousRow`) for the post-harmonization stages where the
  schema is fixed, and a schema-aware model (`Df`, with explicit column
  lists) for the stages whose behaviour depends on column presence
  (`harmonize_columns`, `build_per_spw_table`, `query_maps_sources`).
-/

/-- Code-point lexicographic order on character lists (Python string `<`). -/
def charListLt : List Char → List Char → Bool
  | [], [] => false
  | [], _ :: _ => true
  | _ :: _, [] => false
  | a :: as, b :: bs =>
    if a.toNat < b.toNat then true
    else if a.toNat = b.toNat then charListLt as bs
    else false

/-- Python string `<` (code-point lexicographic). -/
def pyStrLt (a b : String) : Bool := charListLt a.data b.data

/-- Python string `<=`. -/
def pyStrLe (a b : String) : Bool := !(pyStrLt b a)

/-- Insert `x` into `l` before the first element `y` with `le x y`;
the insertion step of a stable insertion sort. -/
def insertLe {α : Type} (le : α → α → Bool) (x : α) : List α → List α
  | [] => [x]
  | y :: ys => if le x y then x :: y :: ys else y :: insertLe le x ys

/-- Stable insertion sort (ascending).  Models Python's `sorted` and the
deterministic row sorts performed by pandas in this program. -/
def sortBy {α : Type} (le : α → α → Bool) : List α → List α
  | [] => []
  | x :: xs => insertLe le x (sortBy le xs)

/-- Exponent of the factor `p` in `n` (0 when `p ≤ 1` or `n = 0`);
fuel-bounded structural recursion, called with fuel `n`. -/
def countFactor (p : Nat) : Nat → Nat → Nat
  | 0, _ => 0
  | fuel + 1, n =>
    if 2 ≤ p ∧ n ≠ 0 ∧ n % p = 0 then countFactor p fuel (n / p) + 1 else 0

/-- Digit string of `m` with a decimal point inserted `k` places from the
right, zero-padding the front so an integer digit remains (`5, 1 ↦ "0.5"`). -/
def insertPointStr (m k : Nat) : String :=
  let s := toString m
  let s := if k + 1 ≤ s.length then s
           else String.mk (List.replicate (k + 1 - s.length) '0') ++ s
  let d := s.data
  String.mk (d.take (d.length - k)) ++ "." ++ String.mk (d.drop (d.length - k))

/-- Python `str()` of a float whose value is the rational `q`, for the
finite-decimal rationals that occur in this program: the shortest decimal
form (no trailing zeros, since ℚ is stored reduced), with `.0` appended to
integral values.  Rationals without a finite decimal expansion (which cannot
arise from float data) fall back to a fraction rendering. -/
def pyFloatStr (q : ℚ) : String :=
  let d := q.den
  let a := countFactor 2 d d
  let b := countFactor 5 d d
  let k := max a b
  if d = 2 ^ a * 5 ^ b then
    let m := q.num.natAbs * 10 ^ k / d
    let s := if k = 0 then toString m ++ ".0" else insertPointStr m k
    (if q.num < 0 then "-" else "") ++ s
  else toString q.num ++ "/" ++ toString d

/-- The SiO(v=0) transition table of the script: ordered mapping from
transition label to rest frequency in GHz (decimal literals as exact
rationals). -/
def SIO_V0_TRANSITIONS_GHZ : List (String × ℚ) := [
  ("J=1-0", mkRat 43423864 1000000),
  ("J=2-1", mkRat 86846960 1000000),
  ("J=3-2", mkRat 130268610 1000000),
  ("J=4-3", mkRat 173688310 1000000),
  ("J=5-4", mkRat 217104980 1000000),
  ("J=6-5", mkRat 260518200 1000000),
  ("J=7-6", mkRat 303927030 1000000),
  ("J=8-7", mkRat 347331000 1000000),
  ("J=9-8", mkRat 390728730 1000000),
  ("J=10-9", mkRat 434120450 1000000),
  ("J=11-10", mkRat 477506120 1000000),
  ("J=12-11", mkRat 520885480 1000000),
  ("J=13-12", mkRat 564258560 1000000),
  ("J=14-13", mkRat 607625260 1000000),
  ("J=15-14", mkRat 650985560 1000000),
  ("J=16-15", mkRat 694339440 1000000),
  ("J=17-16", mkRat 737686780 1000000),
  ("J=18-17", mkRat 781027470 1000000),
  ("J=19-18", mkRat 824361490 1000000),
  ("J=20-19", mkRat 867688720 1000000)]

/-- The fixed MAPS target list of the script. -/
def MAPS_SOURCES : List String := ["IM Lup", "AS 209", "GM Aur", "HD 163296", "MWC 480"]

/-- A harmonized observation row (one ObsCore row after `harmonize_columns`),
restricted to the columns the matcher and aggregators read.  `ang_res_arcsec`
is `none` when the cell is NaN. -/
structure ObsRecord where
  Source : String
  project_code : String
  band_list : String
  min_freq_GHz : ℚ
  max_freq_GHz : ℚ
  ang_res_arcsec : Option ℚ
  MOUS_ID : String
deriving DecidableEq

/-- A row of the matcher output: an observation row extended with the
`SiO_transition` and `SiO_freq_GHz` columns. -/
structure MatchRecord where
  obs : ObsRecord
  SiO_transition : String
  SiO_freq_GHz : ℚ
deriving DecidableEq

/-- `find_sio_spw_matches`: for each transition `(trans, nu)` in table order,
select the rows with `min_freq_GHz < nu` and `max_freq_GHz > nu`, tag them
with the transition, and concatenate all selections (dropping empty
selections, as the code does, leaves the concatenation unchanged). -/
def find_sio_spw_matches (obs_df : List ObsRecord) : List MatchRecord :=
  (SIO_V0_TRANSITIONS_GHZ.map (fun t =>
    (obs_df.filter (fun r =>
        decide (r.min_freq_GHz < t.2) && decide (r.max_freq_GHz > t.2))).map
      (fun r => { obs := r, SiO_transition := t.1, SiO_freq_GHz := t.2 }))).flatten

/-- `join_unique` from `build_per_mous_table`:
`", ".join(sorted(series.astype(str).unique()))`.  Callers pass the cell
values already rendered as strings; `unique` keeps one copy of each value
(its order is irrelevant under the subsequent sort). -/
def join_unique (xs : List String) : String :=
  String.intercalate ", " (sortBy pyStrLe xs.dedup)

/-- pandas `min` aggregation over a non-empty numeric group. -/
def aggMin (l : List ℚ) : ℚ :=
  match l with
  | [] => 0
  | x :: xs => xs.foldl min x

/-- pandas `max` aggregation over a non-empty numeric group. -/
def aggMax (l : List ℚ) : ℚ :=
  match l with
  | [] => 0
  | x :: xs => xs.foldl max x

/-- pandas `min` aggregation over a float column with NaN (`none`) cells:
NaN values are skipped; the result is NaN only when every cell is NaN. -/
def aggMinOpt (l : List (Option ℚ)) : Option ℚ :=
  match l.filterMap id with
  | [] => none
  | x :: xs => some (xs.foldl min x)

/-- One row of the per-MOUS summary table, fields in output column order
(`groupby("MOUS_ID")`, the aggregation dict, then the renames). -/
structure MousRow where
  MOUS_ID : String
  Source : String
  Project : String
  ALMA_Band : String
  min_freq_GHz : ℚ
  max_freq_GHz : ℚ
  SiO_transitions : String
  SiO_freqs_GHz : String
  ang_res_arcsec : Option ℚ
deriving DecidableEq

/-- The group of match rows sharing the MOUS identifier `k`. -/
def mousGroup (df : List MatchRecord) (k : String) : List MatchRecord :=
  df.filter (fun m => m.obs.MOUS_ID == k)

/-- The aggregated summary row for MOUS identifier `k`: the aggregation dict
of `build_per_mous_table` applied to the group of `k`. -/
def mousRowFor (df : List MatchRecord) (k : String) : MousRow :=
  let g := mousGroup df k
  { MOUS_ID := k
    Source := join_unique (g.map (fun m => m.obs.Source))
    Project := join_unique (g.map (fun m => m.obs.project_code))
    ALMA_Band := join_unique (g.map (fun m => m.obs.band_list))
    min_freq_GHz := aggMin (g.map (fun m => m.obs.min_freq_GHz))
    max_freq_GHz := aggMax (g.map (fun m => m.obs.max_freq_GHz))
    SiO_transitions := join_unique (g.map (fun m => m.SiO_transition))
    SiO_freqs_GHz := join_unique (g.map (fun m => pyFloatStr m.SiO_freq_GHz))
    ang_res_arcsec := aggMinOpt (g.map (fun m => m.obs.ang_res_arcsec)) }

/-- Row order of the final `sort_values(["Source", "Project"])` of the
per-MOUS table. -/
def mousRowLe (a b : MousRow) : Bool :=
  if a.Source == b.Source then pyStrLe a.Project b.Project else pyStrLt a.Source b.Source

/-- `build_per_mous_table`: group by `MOUS_ID` (pandas sorts the group keys),
aggregate each group, rename, and sort the rows by `(Source, Project)`. -/
def build_per_mous_table (df : List MatchRecord) : List MousRow :=
  let keys := sortBy pyStrLe (df.map (fun m => m.obs.MOUS_ID)).dedup
  sortBy mousRowLe (keys.map (mousRowFor df))

/-- A pandas cell: a string, a float (as an exact rational), or NaN. -/
inductive Cell
  | str (s : String)
  | num (q : ℚ)
  | nan
deriving DecidableEq

/-- Schema-aware DataFrame model: an ordered column list and rows of cells
aligned with it (used for the stages whose behaviour depends on which
columns are present). -/
structure Df where
  columns : List String
  rows : List (List Cell)
deriving DecidableEq

/-- Position of a column in the schema, if present. -/
def Df.colIdx (df : Df) (c : String) : Option Nat := df.columns.indexOf? c

/-- Read the cell of a row at an optional column position (NaN when the
column is absent, as produced by pandas alignment). -/
def Df.getCell (row : List Cell) (i : Option Nat) : Cell :=
  match i with
  | none => Cell.nan
  | some i => row.getD i Cell.nan

/-- The values of one column (all NaN when the column is absent). -/
def Df.getCol (df : Df) (c : String) : List Cell :=
  df.rows.map (fun r => Df.getCell r (df.colIdx c))

/-- `df[c] = vals`: replace the column in place when present, else append a
new last column. -/
def Df.setCol (df : Df) (c : String) (vals : List Cell) : Df :=
  match df.columns.indexOf? c with
  | some i => { columns := df.columns, rows := (df.rows.zip vals).map (fun p => p.1.set i p.2) }
  | none => { columns := df.columns ++ [c], rows := (df.rows.zip vals).map (fun p => p.1 ++ [p.2]) }

/-- `df[cols]`: project onto the given columns in the given order. -/
def Df.select (df : Df) (cols : List String) : Df :=
  { columns := cols,
    rows := df.rows.map (fun r => cols.map (fun c => Df.getCell r (df.colIdx c))) }

/-- Apply a column-rename mapping to one name (names not in the mapping are
kept, as pandas `rename` ignores absent keys). -/
def renameCol (m : List (String × String)) (c : String) : String :=
  match m.lookup c with
  | some c2 => c2
  | none => c

/-- `df.rename(columns=m)`. -/
def Df.rename (df : Df) (m : List (String × String)) : Df :=
  { columns := df.columns.map (renameCol m), rows := df.rows }

/-- Constructor rank used to order cells of different kinds; NaN ranks last
(pandas `na_position="last"`). -/
def cellRank : Cell → Nat
  | .num _ => 0
  | .str _ => 1
  | .nan => 2

/-- Cell order used by `sort_values`: floats numerically, strings by code
point, NaN after everything. -/
def cellLe (a b : Cell) : Bool :=
  match a, b with
  | .num x, .num y => decide (x ≤ y)
  | .str x, .str y => pyStrLe x y
  | a, b => decide (cellRank a ≤ cellRank b)

/-- Lexicographic row order on a list of (optional) key-column positions. -/
def rowKeyLe (idxs : List (Option Nat)) (r1 r2 : List Cell) : Bool :=
  match idxs with
  | [] => true
  | i :: rest =>
    let v1 := Df.getCell r1 i
    let v2 := Df.getCell r2 i
    if v1 = v2 then rowKeyLe rest r1 r2 else cellLe v1 v2

/-- A sort-key column is orderable by pandas when its non-NaN cells are all
strings or all floats (mixing the two raises a `TypeError` during sorting). -/
def colSortable (col : List Cell) : Bool :=
  col.all (fun c => match c with | .str _ => true | .nan => true | .num _ => false) ||
  col.all (fun c => match c with | .num _ => true | .nan => true | .str _ => false)

/-- `df.sort_values(keys)`: `KeyError` naming the first absent key,
`TypeError` on a mixed-type key column, otherwise the rows sorted
ascending, lexicographically by the key columns. -/
def Df.sort_values (df : Df) (keys : List String) : Except String Df :=
  match keys.find? (fun k => !(df.columns.contains k)) with
  | some k => .error ("KeyError: " ++ k)
  | none =>
    if keys.all (fun k => colSortable (df.getCol k)) then
      .ok { columns := df.columns, rows := sortBy (rowKeyLe (keys.map df.colIdx)) df.rows }
    else .error "TypeError: unorderable mixed-type sort key"

/-- The resolution-defaulting step of `harmonize_columns`: keep
`ang_res_arcsec` if present, else copy `best_ang_res`, else fill with NaN. -/
def harmonizeAngRes (df : Df) : Df :=
  if df.columns.contains "ang_res_arcsec" then df
  else if df.columns.contains "best_ang_res" then
    df.setCol "ang_res_arcsec" (df.getCol "best_ang_res")
  else df.setCol "ang_res_arcsec" (df.rows.map (fun _ => Cell.nan))

/-- The band-defaulting step of `harmonize_columns`: copy `band` to
`band_list` when only the former is present. -/
def harmonizeBand (df : Df) : Df :=
  if !(df.columns.contains "band_list") && df.columns.contains "band" then
    df.setCol "band_list" (df.getCol "band")
  else df

/-- `harmonize_columns`: default the resolution column, default the band
column, require both frequency columns (checking `min_freq_GHz` first),
and derive `MOUS_ID` from one of the two identifier columns. -/
def harmonize_columns (df0 : Df) : Except String Df :=
  let df := harmonizeBand (harmonizeAngRes df0)
  if !(df.columns.contains "min_freq_GHz") then
    .error "Missing required ObsCore column: min_freq_GHz"
  else if !(df.columns.contains "max_freq_GHz") then
    .error "Missing required ObsCore column: max_freq_GHz"
  else if df.columns.contains "member_ous_uid" then
    .ok (df.setCol "MOUS_ID" (df.getCol "member_ous_uid"))
  else if df.columns.contains "member_ous_id" then
    .ok (df.setCol "MOUS_ID" (df.getCol "member_ous_id"))
  else
    .error "ObsCore table missing MOUS identifier (member_ous_uid / member_ous_id)."

/-- The fixed column set of the per-SPW table. -/
def spwKeepCols : List String :=
  ["Source", "project_code", "band_list", "min_freq_GHz", "max_freq_GHz",
   "SiO_transition", "SiO_freq_GHz", "ang_res_arcsec", "MOUS_ID"]

/-- The display renames applied by the per-SPW builder. -/
def spwRenames : List (String × String) :=
  [("project_code", "Project"), ("band_list", "ALMA_Band")]

/-- The sort keys of the per-SPW table (post-rename names). -/
def spwSortKeys : List String := ["Source", "Project", "ALMA_Band", "SiO_freq_GHz"]

/-- The projection-and-rename part of `build_per_spw_table`: keep the
columns of the fixed set that are present, then apply the display renames. -/
def spwSelected (df : Df) : Df :=
  (df.select (spwKeepCols.filter (fun c => df.columns.contains c))).rename spwRenames

/-- `build_per_spw_table`: keep the columns of the fixed set that are
present, rename the project and band columns, and sort by
`(Source, Project, ALMA_Band, SiO_freq_GHz)`. -/
def build_per_spw_table (df : Df) : Except String Df :=
  (spwSelected df).sort_values spwSortKeys

/-- `df["Source"] = src`. -/
def addSourceCol (df : Df) (src : String) : Df :=
  df.setCol "Source" (df.rows.map (fun _ => Cell.str src))

/-- `pd.concat` of two frames: union of columns in first-seen order, absent
cells filled with NaN, rows stacked. -/
def concat2 (acc df : Df) : Df :=
  let cols := acc.columns ++ df.columns.filter (fun c => !(acc.columns.contains c))
  { columns := cols,
    rows := acc.rows.map (fun r => cols.map (fun c => Df.getCell r (acc.colIdx c)))
         ++ df.rows.map (fun r => cols.map (fun c => Df.getCell r (df.colIdx c))) }

/-- `pd.concat(dfs, ignore_index=True)` over a non-empty list. -/
def pd_concat : List Df → Df
  | [] => { columns := [], rows := [] }
  | d :: ds => ds.foldl concat2 d

/-- Whether the archive query for one target returns at least one row
(an exception or a `None`/empty result counts as producing nothing). -/
def queryProducedRows (q : String → Except Unit (Option Df)) (src : String) : Bool :=
  match q src with
  | .ok (some df) => !df.rows.isEmpty
  | _ => false

/-- The body of the per-target query loop: an exception, a `None` result, or
an empty result is skipped (`none`); otherwise the rows are tagged with the
target name in a `Source` column and collected. -/
def querySourceStep (q : String → Except Unit (Option Df)) (src : String) : Option Df :=
  match q src with
  | .error _ => none
  | .ok none => none
  | .ok (some df) => if df.rows.isEmpty then none else some (addSourceCol df src)

/-- `query_maps_sources`, with the external `alminer.target` client passed as
the oracle `q` (`.error` models a raised exception, `.ok none` a `None`
result): each target whose query fails or returns no rows is skipped, each
surviving result is tagged with a `Source` column, and the run aborts with
the exhaustion error exactly when nothing was collected. -/
def query_maps_sources (q : String → Except Unit (Option Df)) (sources : List String) :
    Except String Df :=
  match sources.filterMap (querySourceStep q) with
  | [] => .error "No observations returned for any MAPS source."
  | d :: ds => .ok (pd_concat (d :: ds))

/-- The schema of the typed observation rows, in the column order used when
they are viewed as a frame. -/
def obsColumns : List String :=
  ["Source", "project_code", "band_list", "min_freq_GHz", "max_freq_GHz",
   "ang_res_arcsec", "MOUS_ID"]

/-- A possibly-NaN float cell. -/
def optCell : Option ℚ → Cell
  | none => Cell.nan
  | some q => Cell.num q

/-- The cells of one observation row, aligned with `obsColumns`. -/
def obsRow (r : ObsRecord) : List Cell :=
  [Cell.str r.Source, Cell.str r.project_code, Cell.str r.band_list,
   Cell.num r.min_freq_GHz, Cell.num r.max_freq_GHz,
   optCell r.ang_res_arcsec, Cell.str r.MOUS_ID]

/-- The matcher output viewed as a frame (the observation columns followed by
the two match columns appended by the matcher). -/
def matchesToDf (ms : List MatchRecord) : Df :=
  { columns := obsColumns ++ ["SiO_transition", "SiO_freq_GHz"],
    rows := ms.map (fun m =>
      obsRow m.obs ++ [Cell.str m.SiO_transition, Cell.num m.SiO_freq_GHz]) }

/-- CSV field quoting (`csv.QUOTE_MINIMAL`): quote when the value contains a
comma, a quote, or a line break, doubling embedded quotes. -/
def csvField (s : String) : String :=
  if s.data.any (fun c => c = ',' || c = '"' || c = '\n' || c = '\r') then
    "\"" ++ String.mk (s.data.foldr (fun c acc =>
      if c = '"' then '"' :: '"' :: acc else c :: acc) []) ++ "\""
  else s

/-- CSV rendering of one cell (pandas renders NaN as an empty field and a
float by its `str()` form). -/
def cellCsv : Cell → String
  | .str s => csvField s
  | .num q => pyFloatStr q
  | .nan => ""

/-- `df.to_csv(index=False)`: header line then one line per row. -/
def dfToCsv (df : Df) : String :=
  String.intercalate "," (df.columns.map csvField) ++ "\n" ++
  String.join (df.rows.map (fun r => String.intercalate "," (r.map cellCsv) ++ "\n"))

/-- CSV rendering of a possibly-NaN float. -/
def optCsv : Option ℚ → String
  | none => ""
  | some q => pyFloatStr q

/-- Header of `sio_mous_summary.csv` (the per-MOUS column order). -/
def mousHeader : List String :=
  ["MOUS_ID", "Source", "Project", "ALMA_Band", "min_freq_GHz", "max_freq_GHz",
   "SiO_transitions", "SiO_freqs_GHz", "ang_res_arcsec"]

/-- The CSV fields of one per-MOUS row. -/
def mousRowCells (r : MousRow) : List String :=
  [csvField r.MOUS_ID, csvField r.Source, csvField r.Project, csvField r.ALMA_Band,
   pyFloatStr r.min_freq_GHz, pyFloatStr r.max_freq_GHz,
   csvField r.SiO_transitions, csvField r.SiO_freqs_GHz, optCsv r.ang_res_arcsec]

/-- `mous.to_csv(index=False)`. -/
def mousToCsv (t : List MousRow) : String :=
  String.intercalate "," mousHeader ++ "\n" ++
  String.join (t.map (fun r => String.intercalate "," (mousRowCells r) ++ "\n"))

/-- `"%.6f"` fixed-point rendering of a float value (coarse model of the
external serializer's float format; rounding of sub-microhertz digits is
never observable in this program's data). -/
def fmt6 (q : ℚ) : String :=
  let m := (q.num.natAbs * 1000000 * 2 + q.den) / (2 * q.den)
  (if q.num < 0 then "-" else "") ++ insertPointStr m 6

/-- LaTeX rendering of one cell under `float_format="%.6f"`. -/
def cellTex : Cell → String
  | .str s => s
  | .num q => fmt6 q
  | .nan => "NaN"

/-- One LaTeX table line. -/
def latexRow (cells : List String) : String :=
  String.intercalate " & " cells ++ " \\\\\n"

/-- Coarse model of the external typeset-table serializer (`to_latex`):
a booktabs tabular with the given column formats, header and body. -/
def toLatexTable (colfmt : String) (headers : List String) (rows : List (List String)) : String :=
  "\\begin\x7btabular\x7d\x7b" ++ colfmt ++ "\x7d\n\\toprule\n" ++
  latexRow headers ++ "\\midrule\n" ++ String.join (rows.map latexRow) ++
  "\\bottomrule\n\\end\x7btabular\x7d\n"

/-- The fixed column subset of `sio_spw_matches.tex`. -/
def spwTexCols : List String :=
  ["Source", "Project", "ALMA_Band", "min_freq_GHz", "max_freq_GHz",
   "SiO_transition", "SiO_freq_GHz", "ang_res_arcsec"]

/-- `spw.to_latex(index=False, float_format="%.6f", columns=spwTexCols)`. -/
def dfToLatex (df : Df) (cols : List String) : String :=
  let idxs := cols.map df.colIdx
  toLatexTable (String.mk (cols.map (fun _ => 'l'))) cols
    (df.rows.map (fun r => idxs.map (fun i => cellTex (Df.getCell r i))))

/-- LaTeX rendering of a possibly-NaN float. -/
def optTex : Option ℚ → String
  | none => "NaN"
  | some q => fmt6 q

/-- The fixed column subset of `sio_mous_summary.tex`. -/
def mousTexHeader : List String :=
  ["MOUS_ID", "Source", "Project", "ALMA_Band", "SiO_transitions", "SiO_freqs_GHz",
   "min_freq_GHz", "max_freq_GHz", "ang_res_arcsec"]

/-- The LaTeX fields of one per-MOUS row, in `mousTexHeader` order. -/
def mousTexCells (r : MousRow) : List String :=
  [r.MOUS_ID, r.Source, r.Project, r.ALMA_Band, r.SiO_transitions, r.SiO_freqs_GHz,
   fmt6 r.min_freq_GHz, fmt6 r.max_freq_GHz, optTex r.ang_res_arcsec]

/-- `mous.to_latex(index=False, float_format="%.6f", columns=...)`. -/
def mousToLatex (t : List MousRow) : String :=
  toLatexTable "lllllllll" mousTexHeader (t.map mousTexCells)

/-- `save_tables`: the four files written, as (filename, contents) pairs. -/
def save_tables (spw : Df) (mous : List MousRow) : List (String × String) :=
  [("sio_spw_matches.csv", dfToCsv spw),
   ("sio_mous_summary.csv", mousToCsv mous),
   ("sio_spw_matches.tex", dfToLatex spw spwTexCols),
   ("sio_mous_summary.tex", mousToLatex mous)]

/-- The tail of `main` from the matcher stage on, applied to the harmonized
observation rows: when the matcher finds nothing, `main` prints a notice and
returns without writing anything (`.ok []`); otherwise it builds both tables
and writes the four files.  An uncaught error of a stage propagates. -/
def mainFrom (obs : List ObsRecord) : Except String (List (String × String)) :=
  let sio_spw := find_sio_spw_matches obs
  if sio_spw.isEmpty then .ok []
  else
    match build_per_spw_table (matchesToDf sio_spw) with
    | .error e => .error e
    | .ok spw_table => .ok (save_tables spw_table (build_per_mous_table sio_spw))

/-- The CSV files among a run's outputs. -/
def csvFiles (out : Except String (List (String × String))) : List (String × String) :=
  match out with
  | .error _ => []
  | .ok fs => fs.filter (fun f =>
      f.1 == "sio_spw_matches.csv" || f.1 == "sio_mous_summary.csv")

/-- The input column backing each per-SPW sort key (identity except for the
two renamed display columns). -/
def spwBacking (k : String) : String :=
  if k = "Project" then "project_code"
  else if k = "ALMA_Band" then "band_list"
  else k

/-- The input columns backing the four per-SPW sort keys. -/
def spwSortBacking : List String := spwSortKeys.map spwBacking

/-- Whether the four per-SPW sort-key columns of `spwSelected df` are
type-homogeneous (the condition under which pandas can sort them). -/
def spwSortable (df : Df) : Bool :=
  spwSortKeys.all (fun k => colSortable ((spwSelected df).getCol k))

/-- Test fixture: an observation row whose window (40, 90) GHz strictly
contains the J=1-0 and J=2-1 transitions. -/
def obsFix1 : ObsRecord :=
  { Source := "AS 209", project_code := "2016.1.00484.L", band_list := "3",
    min_freq_GHz := mkRat 40 1, max_freq_GHz := mkRat 90 1,
    ang_res_arcsec := some (mkRat 1 10), MOUS_ID := "uid-A001-X1" }

/-- Test fixture: window (80, 90) GHz on source AS 209, group M1. -/
def obsFix2 : ObsRecord :=
  { Source := "AS 209", project_code := "P1", band_list := "3",
    min_freq_GHz := mkRat 80 1, max_freq_GHz := mkRat 90 1,
    ang_res_arcsec := some (mkRat 2 10), MOUS_ID := "M1" }

/-- Test fixture: window (85, 95) GHz on source GM Aur, same group M1. -/
def obsFix3 : ObsRecord :=
  { Source := "GM Aur", project_code := "P2", band_list := "3",
    min_freq_GHz := mkRat 85 1, max_freq_GHz := mkRat 95 1,
    ang_res_arcsec := some (mkRat 15 100), MOUS_ID := "M1" }

/-- Test fixture: window (10, 20) GHz, strictly below every transition. -/
def obsFixLow : ObsRecord :=
  { Source := "IM Lup", project_code := "P3", band_list := "1",
    min_freq_GHz := mkRat 10 1, max_freq_GHz := mkRat 20 1,
    ang_res_arcsec := none, MOUS_ID := "M3" }

/-- Test fixture: two match rows sharing group M1 with different sources and
overlapping windows (both genuinely cover J=2-1). -/
def msFixC3 : List MatchRecord :=
  [{ obs := obsFix2, SiO_transition := "J=2-1", SiO_freq_GHz := mkRat 86846960 1000000 },
   { obs := obsFix3, SiO_transition := "J=2-1", SiO_freq_GHz := mkRat 86846960 1000000 }]

/-- Test fixture: one observation matched at both J=1-0 (43.423864 GHz) and
J=3-2 (130.268610 GHz), in one group. -/
def msFixC10 : List MatchRecord :=
  [{ obs := obsFix1, SiO_transition := "J=1-0", SiO_freq_GHz := mkRat 43423864 1000000 },
   { obs := obsFix1, SiO_transition := "J=3-2", SiO_freq_GHz := mkRat 130268610 1000000 }]

/-- Test fixture: a match table with every per-SPW column except
`project_code`. -/
def dfFixNoProject : Df :=
  { columns := ["Source", "band_list", "min_freq_GHz", "max_freq_GHz",
      "SiO_transition", "SiO_freq_GHz", "ang_res_arcsec", "MOUS_ID"],
    rows := [[Cell.str "AS 209", Cell.str "3", Cell.num (mkRat 40 1),
      Cell.num (mkRat 90 1), Cell.str "J=1-0", Cell.num (mkRat 43423864 1000000),
      Cell.nan, Cell.str "M1"]] }

/-- Test fixture: an ObsCore table with neither frequency column. -/
def dfFixNoFreq : Df :=
  { columns := ["Source"], rows := [[Cell.str "AS 209"]] }

/-- Test fixture: an ObsCore table with `min_freq_GHz` but no
`max_freq_GHz`. -/
def dfFixNoMax : Df :=
  { columns := ["Source", "min_freq_GHz"],
    rows := [[Cell.str "AS 209", Cell.num (mkRat 40 1)]] }

/-- Test fixture: a query client whose every request returns `None`. -/
def qFixNone : String → Except Unit (Option Df) := fun _ => Except.ok none

/-! ### Order and sorting lemmas -/

theorem charListLt_asymm : ∀ (a b : List Char), charListLt a b = true → charListLt b a = false
  | [], [] => by simp [charListLt]
  | [], _ :: _ => by simp [charListLt]
  | _ :: _, [] => by simp [charListLt]
  | a :: as, b :: bs => by
    simp only [charListLt]
    intro h
    by_cases h1 : a.toNat < b.toNat
    · have : ¬ b.toNat < a.toNat := by omega
      have : ¬ b.toNat = a.toNat := by omega
      simp [*]
    · by_cases h2 : a.toNat = b.toNat
      · have : ¬ b.toNat < a.toNat := by omega
        have hb : b.toNat = a.toNat := h2.symm
        simp only [h2, lt_self_iff_false, if_false] at h
        simp [this, hb, lt_self_iff_false, charListLt_asymm as bs h]
      · simp [h1, h2] at h

theorem charListLt_conn : ∀ (a b : List Char),
    charListLt a b = false → charListLt b a = false → a = b
  | [], [] => by intros; rfl
  | [], _ :: _ => by simp [charListLt]
  | _ :: _, [] => by simp [charListLt]
  | a :: as, b :: bs => by
    simp only [charListLt]
    intro h1 h2
    by_cases hlt : a.toNat < b.toNat
    · simp [hlt] at h1
    · by_cases hgt : b.toNat < a.toNat
      · simp [hgt] at h2
      · have he : a.toNat = b.toNat := by omega
        have hc : a = b := Char.ext (UInt32.ext he)
        simp only [he, lt_self_iff_false, if_false] at h1
        have he2 : b.toNat = a.toNat := he.symm
        simp only [he2, lt_self_iff_false, if_false] at h2
        rw [hc, charListLt_conn as bs h1 h2]

theorem charListLt_trans : ∀ (a b c : List Char),
    charListLt a b = true → charListLt b c = true → charListLt a c = true
  | [], [], _ => by simp [charListLt]
  | [], _ :: _, [] => by simp [charListLt]
  | [], _ :: _, _ :: _ => by simp [charListLt]
  | _ :: _, [], _ => by simp [charListLt]
  | _ :: _, _ :: _, [] => by simp [charListLt]
  | a :: as, b :: bs, c :: cs => by
    simp only [charListLt]
    intro h1 h2
    by_cases hab : a.toNat < b.toNat <;> by_cases hbc : b.toNat < c.toNat
    · simp [show a.toNat < c.toNat by omega]
    · by_cases hbc2 : b.toNat = c.toNat
      · simp [show a.toNat < c.toNat by omega]
      · simp [hbc, hbc2] at h2
    · by_cases hab2 : a.toNat = b.toNat
      · simp [show a.toNat < c.toNat by omega]
      · simp [hab, hab2] at h1
    · by_cases hab2 : a.toNat = b.toNat <;> by_cases hbc2 : b.toNat = c.toNat
      · have hac : a.toNat = c.toNat := by omega
        have : ¬ a.toNat < c.toNat := by omega
        simp only [hab2, lt_self_iff_false, if_false] at h1
        simp only [hbc2, lt_self_iff_false, if_false] at h2
        simp [this, hac, lt_self_iff_false, charListLt_trans as bs cs h1 h2]
      · simp [hbc, hbc2] at h2
      · simp [hab, hab2] at h1
      · simp [hab, hab2] at h1

theorem pyStrLt_asymm {a b : String} (h : pyStrLt a b = true) : pyStrLt b a = false :=
  charListLt_asymm a.data b.data h

theorem pyStrLe_total (a b : String) : (pyStrLe a b || pyStrLe b a) = true := by
  simp only [pyStrLe, Bool.or_eq_true, Bool.not_eq_true']
  by_cases h : pyStrLt b a = true
  · exact Or.inr (pyStrLt_asymm h)
  · exact Or.inl (by simpa using h)

theorem pyStrLe_trans {a b c : String}
    (h1 : pyStrLe a b = true) (h2 : pyStrLe b c = true) : pyStrLe a c = true := by
  simp only [pyStrLe, Bool.not_eq_true'] at h1 h2 ⊢
  by_cases hca : pyStrLt c a = true
  · by_cases hab : pyStrLt a b = true
    · have := charListLt_trans c.data a.data b.data hca hab
      simp [pyStrLt] at this h2
      simp [this] at h2
    · have hab2 : a = b := String.ext (charListLt_conn a.data b.data (by simpa [pyStrLt] using hab) h1)
      subst hab2
      simp [hca] at h2
  · simpa using hca

theorem pyStrLe_antisymm {a b : String}
    (h1 : pyStrLe a b = true) (h2 : pyStrLe b a = true) : a = b := by
  simp only [pyStrLe, Bool.not_eq_true'] at h1 h2
  exact String.ext (charListLt_conn a.data b.data h2 h1)

theorem insertLe_perm {α : Type} (le : α → α → Bool) (x : α) (l : List α) :
    (insertLe le x l).Perm (x :: l) := by
  induction l with
  | nil => exact List.Perm.refl _
  | cons y ys ih =>
    cases h : le x y with
    | true => simp [insertLe, h]
    | false =>
      simp only [insertLe, h, Bool.false_eq_true, if_false]
      exact (ih.cons y).trans (List.Perm.swap x y ys)

theorem sortBy_perm {α : Type} (le : α → α → Bool) (l : List α) :
    (sortBy le l).Perm l := by
  induction l with
  | nil => exact List.Perm.refl _
  | cons x xs ih => exact (insertLe_perm le x (sortBy le xs)).trans (ih.cons x)

theorem mem_sortBy {α : Type} {le : α → α → Bool} {x : α} {l : List α} :
    x ∈ sortBy le l ↔ x ∈ l :=
  (sortBy_perm le l).mem_iff

theorem insertLe_pairwise {α : Type} {le : α → α → Bool}
    (htot : ∀ a b, (le a b || le b a) = true)
    (htr : ∀ a b c, le a b = true → le b c = true → le a c = true)
    (x : α) {l : List α} (hl : l.Pairwise (fun a b => le a b = true)) :
    (insertLe le x l).Pairwise (fun a b => le a b = true) := by
  induction l with
  | nil => simp [insertLe]
  | cons y ys ih =>
    rw [List.pairwise_cons] at hl
    obtain ⟨hy, hys⟩ := hl
    cases h : le x y with
    | true =>
      simp only [insertLe, h, if_true]
      refine List.Pairwise.cons ?_ (List.Pairwise.cons hy hys)
      intro b hb
      rcases List.mem_cons.mp hb with rfl | hb
      · exact h
      · exact htr x y b h (hy b hb)
    | false =>
      simp only [insertLe, h, Bool.false_eq_true, if_false]
      refine List.Pairwise.cons ?_ (ih hys)
      intro b hb
      have hb2 := (insertLe_perm le x ys).mem_iff.mp hb
      rcases List.mem_cons.mp hb2 with rfl | hb3
      · have := htot b y
        simp [h] at this
        exact this
      · exact hy b hb3

theorem sortBy_pairwise {α : Type} {le : α → α → Bool}
    (htot : ∀ a b, (le a b || le b a) = true)
    (htr : ∀ a b c, le a b = true → le b c = true → le a c = true)
    (l : List α) : (sortBy le l).Pairwise (fun a b => le a b = true) := by
  induction l with
  | nil => simp [sortBy]
  | cons x xs ih => exact insertLe_pairwise htot htr x ih

theorem cellLe_total (a b : Cell) : (cellLe a b || cellLe b a) = true := by
  cases a <;> cases b <;> simp [cellLe, cellRank, pyStrLe_total, le_total]

theorem cellLe_trans {a b c : Cell}
    (h1 : cellLe a b = true) (h2 : cellLe b c = true) : cellLe a c = true := by
  cases a <;> cases b <;> cases c <;>
    simp_all [cellLe, cellRank] <;>
    first
      | exact le_trans h1 h2
      | exact pyStrLe_trans h1 h2

theorem cellLe_antisymm {a b : Cell}
    (h1 : cellLe a b = true) (h2 : cellLe b a = true) : a = b := by
  cases a <;> cases b <;> simp_all [cellLe, cellRank]
  · exact pyStrLe_antisymm h1 h2
  · exact le_antisymm h1 h2

theorem rowKeyLe_total (idxs : List (Option Nat)) (r1 r2 : List Cell) :
    (rowKeyLe idxs r1 r2 || rowKeyLe idxs r2 r1) = true := by
  induction idxs with
  | nil => rfl
  | cons i rest ih =>
    simp only [rowKeyLe]
    by_cases h : Df.getCell r1 i = Df.getCell r2 i
    · simp [h, ih]
    · have h2 : ¬ Df.getCell r2 i = Df.getCell r1 i := fun e => h e.symm
      simp [h, h2, cellLe_total]

theorem rowKeyLe_trans (idxs : List (Option Nat)) {r1 r2 r3 : List Cell}
    (h1 : rowKeyLe idxs r1 r2 = true) (h2 : rowKeyLe idxs r2 r3 = true) :
    rowKeyLe idxs r1 r3 = true := by
  induction idxs with
  | nil => rfl
  | cons i rest ih =>
    simp only [rowKeyLe] at h1 h2 ⊢
    by_cases e12 : Df.getCell r1 i = Df.getCell r2 i <;>
      by_cases e23 : Df.getCell r2 i = Df.getCell r3 i
    · rw [if_pos e12] at h1
      rw [if_pos e23] at h2
      rw [if_pos (e12.trans e23)]
      exact ih h1 h2
    · rw [if_pos e12] at h1
      rw [if_neg e23] at h2
      have e13 : ¬ Df.getCell r1 i = Df.getCell r3 i := fun e => e23 (e12.symm.trans e)
      rw [if_neg e13, e12]
      exact h2
    · rw [if_neg e12] at h1
      rw [if_pos e23] at h2
      have e13 : ¬ Df.getCell r1 i = Df.getCell r3 i := fun e => e12 (e.trans e23.symm)
      rw [if_neg e13, ← e23]
      exact h1
    · rw [if_neg e12] at h1
      rw [if_neg e23] at h2
      by_cases e13 : Df.getCell r1 i = Df.getCell r3 i
      · have h2b : cellLe (Df.getCell r2 i) (Df.getCell r1 i) = true := by
          rw [e13]; exact h2
        exact absurd (cellLe_antisymm h1 h2b) e12
      · rw [if_neg e13]
        exact cellLe_trans h1 h2

/-! ### Matcher and aggregation lemmas -/

theorem mem_find_sio_spw_matches {m : MatchRecord} {obs : List ObsRecord} :
    m ∈ find_sio_spw_matches obs ↔
      ((m.SiO_transition, m.SiO_freq_GHz) ∈ SIO_V0_TRANSITIONS_GHZ ∧ m.obs ∈ obs ∧
        m.obs.min_freq_GHz < m.SiO_freq_GHz ∧ m.SiO_freq_GHz < m.obs.max_freq_GHz) := by
  unfold find_sio_spw_matches
  rw [List.mem_flatten]
  constructor
  · rintro ⟨l, hl, hm⟩
    rw [List.mem_map] at hl
    obtain ⟨t, ht, rfl⟩ := hl
    rw [List.mem_map] at hm
    obtain ⟨r, hr, rfl⟩ := hm
    rw [List.mem_filter] at hr
    obtain ⟨hr, hcond⟩ := hr
    simp only [Bool.and_eq_true, decide_eq_true_eq] at hcond
    exact ⟨ht, hr, hcond.1, hcond.2⟩
  · rintro ⟨hT, hr, h1, h2⟩
    refine ⟨_, List.mem_map.mpr ⟨(m.SiO_transition, m.SiO_freq_GHz), hT, rfl⟩, ?_⟩
    rw [List.mem_map]
    refine ⟨m.obs, List.mem_filter.mpr ⟨hr, ?_⟩, rfl⟩
    simp only [Bool.and_eq_true, decide_eq_true_eq]
    exact ⟨h1, h2⟩

theorem find_matches_filter_aux (r : ObsRecord) (obs : List ObsRecord)
    (hobs : obs.filter (fun x => decide (x = r)) = [r]) :
    ∀ L : List (String × ℚ),
    ((L.map (fun t =>
        (obs.filter (fun x =>
            decide (x.min_freq_GHz < t.2) && decide (x.max_freq_GHz > t.2))).map
          (fun x => ({ obs := x, SiO_transition := t.1, SiO_freq_GHz := t.2 } : MatchRecord)))).flatten).filter
      (fun m => decide (m.obs = r)) =
    (L.filter (fun t =>
        decide (r.min_freq_GHz < t.2) && decide (r.max_freq_GHz > t.2))).map
      (fun t => ({ obs := r, SiO_transition := t.1, SiO_freq_GHz := t.2 } : MatchRecord)) := by
  intro L
  induction L with
  | nil => rfl
  | cons t ts ih =>
    simp only [List.map_cons, List.flatten_cons, List.filter_append, ih, List.filter_cons]
    rw [List.filter_map]
    have hcomp :
        List.filter
          ((fun m : MatchRecord => decide (m.obs = r)) ∘
            (fun x => ({ obs := x, SiO_transition := t.1, SiO_freq_GHz := t.2 } : MatchRecord)))
          (obs.filter (fun x =>
            decide (x.min_freq_GHz < t.2) && decide (x.max_freq_GHz > t.2))) =
        List.filter (fun x => decide (x = r))
          (obs.filter (fun x =>
            decide (x.min_freq_GHz < t.2) && decide (x.max_freq_GHz > t.2))) := rfl
    rw [hcomp, List.filter_filter]
    have hswap :
        obs.filter (fun a =>
          decide (a = r) && (decide (a.min_freq_GHz < t.2) && decide (a.max_freq_GHz > t.2))) =
        obs.filter (fun a =>
          (decide (a.min_freq_GHz < t.2) && decide (a.max_freq_GHz > t.2)) && decide (a = r)) :=
      List.filter_congr (fun a _ => Bool.and_comm _ _)
    rw [hswap, ← List.filter_filter, hobs]
    cases hc : (decide (r.min_freq_GHz < t.2) && decide (r.max_freq_GHz > t.2)) with
    | true => simp [List.filter, hc]
    | false => simp [List.filter, hc]

theorem foldl_min_spec (x : ℚ) (xs : List ℚ) :
    xs.foldl min x ∈ x :: xs ∧ ∀ y ∈ x :: xs, xs.foldl min x ≤ y := by
  induction xs generalizing x with
  | nil => simp
  | cons z zs ih =>
    obtain ⟨hmem, hle⟩ := ih (min x z)
    constructor
    · rcases List.mem_cons.mp hmem with h | h
      · rcases min_choice x z with hc | hc
        · rw [List.foldl_cons, h, hc]
          exact List.mem_cons_self _ _
        · rw [List.foldl_cons, h, hc]
          exact List.mem_cons_of_mem _ (List.mem_cons_self _ _)
      · exact List.mem_cons_of_mem _ (List.mem_cons_of_mem _ h)
    · intro y hy
      rcases List.mem_cons.mp hy with rfl | hy
      · exact le_trans (hle _ (List.mem_cons_self _ _)) (min_le_left _ _)
      · rcases List.mem_cons.mp hy with rfl | hy
        · exact le_trans (hle _ (List.mem_cons_self _ _)) (min_le_right _ _)
        · exact hle y (List.mem_cons_of_mem _ hy)

theorem foldl_max_spec (x : ℚ) (xs : List ℚ) :
    xs.foldl max x ∈ x :: xs ∧ ∀ y ∈ x :: xs, y ≤ xs.foldl max x := by
  induction xs generalizing x with
  | nil => simp
  | cons z zs ih =>
    obtain ⟨hmem, hle⟩ := ih (max x z)
    constructor
    · rcases List.mem_cons.mp hmem with h | h
      · rcases max_choice x z with hc | hc
        · rw [List.foldl_cons, h, hc]
          exact List.mem_cons_self _ _
        · rw [List.foldl_cons, h, hc]
          exact List.mem_cons_of_mem _ (List.mem_cons_self _ _)
      · exact List.mem_cons_of_mem _ (List.mem_cons_of_mem _ h)
    · intro y hy
      rcases List.mem_cons.mp hy with rfl | hy
      · exact le_trans (le_max_left _ _) (hle _ (List.mem_cons_self _ _))
      · rcases List.mem_cons.mp hy with rfl | hy
        · exact le_trans (le_max_right _ _) (hle _ (List.mem_cons_self _ _))
        · exact hle y (List.mem_cons_of_mem _ hy)

theorem aggMin_spec {l : List ℚ} (h : l ≠ []) : aggMin l ∈ l ∧ ∀ x ∈ l, aggMin l ≤ x := by
  match l with
  | [] => exact absurd rfl h
  | x :: xs => exact foldl_min_spec x xs

theorem aggMax_spec {l : List ℚ} (h : l ≠ []) : aggMax l ∈ l ∧ ∀ x ∈ l, x ≤ aggMax l := by
  match l with
  | [] => exact absurd rfl h
  | x :: xs => exact foldl_max_spec x xs

theorem aggMinOpt_spec (l : List (Option ℚ)) :
    (aggMinOpt l = none ↔ l.filterMap id = []) ∧
      ∀ y, aggMinOpt l = some y → y ∈ l.filterMap id ∧ ∀ x ∈ l.filterMap id, y ≤ x := by
  rcases hf : l.filterMap id with _ | ⟨x, xs⟩
  · constructor
    · simp [aggMinOpt, hf]
    · intro y hy
      simp [aggMinOpt, hf] at hy
  · obtain ⟨hm, hle⟩ := foldl_min_spec x xs
    constructor
    · simp [aggMinOpt, hf]
    · intro y hy
      simp only [aggMinOpt, hf, Option.some.injEq] at hy
      rw [← hy]
      exact ⟨hm, hle⟩

theorem join_unique_spec (xs : List String) :
    ∃ L, join_unique xs = String.intercalate ", " L ∧
      L.Pairwise (fun a b => pyStrLe a b = true) ∧ L.Nodup ∧ (∀ s, s ∈ L ↔ s ∈ xs) := by
  refine ⟨sortBy pyStrLe xs.dedup, rfl, ?_, ?_, ?_⟩
  · exact sortBy_pairwise pyStrLe_total (fun a b c h1 h2 => pyStrLe_trans h1 h2) xs.dedup
  · exact ((sortBy_perm _ _).nodup_iff).mpr (List.nodup_dedup xs)
  · intro s
    rw [mem_sortBy, List.mem_dedup]

theorem mem_build_per_mous {df : List MatchRecord} {row : MousRow} :
    row ∈ build_per_mous_table df ↔
      ∃ k, k ∈ df.map (fun m => m.obs.MOUS_ID) ∧ row = mousRowFor df k := by
  unfold build_per_mous_table
  rw [mem_sortBy, List.mem_map]
  constructor
  · rintro ⟨k, hk, rfl⟩
    exact ⟨k, by rwa [mem_sortBy, List.mem_dedup] at hk, rfl⟩
  · rintro ⟨k, hk, rfl⟩
    refine ⟨k, ?_, rfl⟩
    rwa [mem_sortBy, List.mem_dedup]

theorem mousGroup_ne_nil {df : List MatchRecord} {k : String}
    (h : k ∈ df.map (fun m => m.obs.MOUS_ID)) : mousGroup df k ≠ [] := by
  obtain ⟨m, hm, hk⟩ := List.mem_map.mp h
  intro hnil
  have hmem : m ∈ mousGroup df k := List.mem_filter.mpr ⟨hm, by simp [hk]⟩
  simp [hnil] at hmem

/-! ### Frame-model lemmas -/

theorem contains_setCol_ne {df : Df} {c c' : String} (h : c' ≠ c) (v : List Cell) :
    ((df.setCol c v).columns.contains c') = df.columns.contains c' := by
  unfold Df.setCol
  cases df.columns.indexOf? c with
  | some i => rfl
  | none =>
    cases hcb : df.columns.contains c' with
    | true =>
      exact List.elem_iff.mpr (List.mem_append_left _ (List.elem_iff.mp hcb))
    | false =>
      cases hcc : ((df.columns ++ [c]).contains c') with
      | false => rfl
      | true =>
        rcases List.mem_append.mp (List.elem_iff.mp hcc) with hm | hm
        · exact absurd hm (by simpa using hcb)
        · simp only [List.mem_singleton] at hm
          exact absurd hm h

theorem contains_harmonizeAngRes {df : Df} {c : String} (h : c ≠ "ang_res_arcsec") :
    ((harmonizeAngRes df).columns.contains c) = df.columns.contains c := by
  unfold harmonizeAngRes
  split_ifs
  · rfl
  · exact contains_setCol_ne h _
  · exact contains_setCol_ne h _

theorem contains_harmonizeBand {df : Df} {c : String} (h : c ≠ "band_list") :
    ((harmonizeBand df).columns.contains c) = df.columns.contains c := by
  unfold harmonizeBand
  split_ifs
  · exact contains_setCol_ne h _
  · rfl

theorem mem_spwSelected_columns (df : Df) (k : String) (hk : k ∈ spwSortKeys) :
    k ∈ (spwSelected df).columns ↔ spwBacking k ∈ df.columns := by
  have hcols : (spwSelected df).columns =
      (spwKeepCols.filter (fun c => df.columns.contains c)).map (renameCol spwRenames) := rfl
  rw [hcols, List.mem_map]
  simp only [spwSortKeys, List.mem_cons, List.not_mem_nil, or_false] at hk
  constructor
  · rintro ⟨c, hc, hr⟩
    rw [List.mem_filter] at hc
    obtain ⟨hmem, hcont⟩ := hc
    have hcmem : c ∈ df.columns := List.elem_iff.mp hcont
    simp only [spwKeepCols, List.mem_cons, List.not_mem_nil, or_false] at hmem
    rcases hk with rfl | rfl | rfl | rfl <;>
      rcases hmem with rfl | rfl | rfl | rfl | rfl | rfl | rfl | rfl | rfl <;>
      simp_all [renameCol, spwRenames, spwBacking, List.lookup]
  · intro hb
    rcases hk with rfl | rfl | rfl | rfl
    · exact ⟨"Source",
        List.mem_filter.mpr ⟨by simp [spwKeepCols],
          List.elem_iff.mpr (by simpa [spwBacking] using hb)⟩, rfl⟩
    · exact ⟨"project_code",
        List.mem_filter.mpr ⟨by simp [spwKeepCols],
          List.elem_iff.mpr (by simpa [spwBacking] using hb)⟩, rfl⟩
    · exact ⟨"band_list",
        List.mem_filter.mpr ⟨by simp [spwKeepCols],
          List.elem_iff.mpr (by simpa [spwBacking] using hb)⟩, rfl⟩
    · exact ⟨"SiO_freq_GHz",
        List.mem_filter.mpr ⟨by simp [spwKeepCols],
          List.elem_iff.mpr (by simpa [spwBacking] using hb)⟩, rfl⟩

theorem sort_values_ok {df : Df} {keys : List String}
    (h1 : ∀ k ∈ keys, df.columns.contains k = true)
    (h2 : keys.all (fun k => colSortable (df.getCol k)) = true) :
    df.sort_values keys =
      Except.ok { columns := df.columns,
                  rows := sortBy (rowKeyLe (keys.map df.colIdx)) df.rows } := by
  unfold Df.sort_values
  have hf : keys.find? (fun k => !(df.columns.contains k)) = none :=
    List.find?_eq_none.mpr (fun x hx => by simp only [h1 x hx]; simp)
  rw [hf]
  simp [h2]

/-! ### Claim theorems -/

/-- C1: for every transition `(label, freq)` in the transition table and
every harmonized record `r`, the record appears in the matcher's output
tagged with that transition if and only if
`r.min_freq_GHz < freq ∧ freq < r.max_freq_GHz` (strict on both ends); in
particular a record whose `min_freq_GHz` or `max_freq_GHz` exactly equals
the transition frequency is not matched with it. -/
theorem matcher_membership_iff_strict_bracket
    (label : String) (freq : ℚ) (r : ObsRecord) (obs : List ObsRecord)
    (hT : (label, freq) ∈ SIO_V0_TRANSITIONS_GHZ) (hr : r ∈ obs) :
    (({ obs := r, SiO_transition := label, SiO_freq_GHz := freq } : MatchRecord) ∈
        find_sio_spw_matches obs ↔
      (r.min_freq_GHz < freq ∧ freq < r.max_freq_GHz)) ∧
    ((r.min_freq_GHz = freq ∨ r.max_freq_GHz = freq) →
      ({ obs := r, SiO_transition := label, SiO_freq_GHz := freq } : MatchRecord) ∉
        find_sio_spw_matches obs) := by
  have hiff :=
    @mem_find_sio_spw_matches { obs := r, SiO_transition := label, SiO_freq_GHz := freq } obs
  constructor
  · rw [hiff]
    constructor
    · rintro ⟨_, _, h1, h2⟩
      exact ⟨h1, h2⟩
    · rintro ⟨h1, h2⟩
      exact ⟨hT, hr, h1, h2⟩
  · rintro (he | he) hmem <;> rw [hiff] at hmem
    · exact absurd hmem.2.2.1 (by rw [he]; exact lt_irrefl freq)
    · exact absurd hmem.2.2.2 (by rw [he]; exact lt_irrefl freq)

/-- Witness for C1: the J=1-0 transition at 43.423864 GHz against the
fixture record with window (40, 90) GHz. -/
theorem matcher_membership_iff_strict_bracket_witness :
    (({ obs := obsFix1, SiO_transition := "J=1-0",
        SiO_freq_GHz := mkRat 43423864 1000000 } : MatchRecord) ∈
        find_sio_spw_matches [obsFix1] ↔
      (obsFix1.min_freq_GHz < mkRat 43423864 1000000 ∧
        mkRat 43423864 1000000 < obsFix1.max_freq_GHz)) ∧
    ((obsFix1.min_freq_GHz = mkRat 43423864 1000000 ∨
        obsFix1.max_freq_GHz = mkRat 43423864 1000000) →
      ({ obs := obsFix1, SiO_transition := "J=1-0", SiO_freq_GHz := mkRat 43423864 1000000 } : MatchRecord) ∉
        find_sio_spw_matches [obsFix1]) :=
  matcher_membership_iff_strict_bracket "J=1-0" (mkRat 43423864 1000000) obsFix1 [obsFix1]
    (by decide) (by decide)

/-- C2: for a record `r` occurring exactly once in the input, the match rows
carrying `r` are exactly one per transition whose frequency lies strictly
inside the window of `r` — each identical to `r` in every observation field
and differing only in the transition label and frequency; a record covering
two transitions yields exactly two, one covering none yields none. -/
theorem matcher_one_match_per_covered_transition
    (obs : List ObsRecord) (r : ObsRecord) (h : obs.count r = 1) :
    (find_sio_spw_matches obs).filter (fun m => decide (m.obs = r)) =
      (SIO_V0_TRANSITIONS_GHZ.filter (fun t =>
          decide (r.min_freq_GHz < t.2) && decide (r.max_freq_GHz > t.2))).map
        (fun t => ({ obs := r, SiO_transition := t.1, SiO_freq_GHz := t.2 } : MatchRecord)) := by
  have hf : obs.filter (fun x => decide (x = r)) = [r] := by
    rw [List.filter_eq, h]
    rfl
  exact find_matches_filter_aux r obs hf SIO_V0_TRANSITIONS_GHZ

/-- Witness for C2: the fixture record with window (40, 90) GHz yields
exactly its J=1-0 and J=2-1 matches. -/
theorem matcher_one_match_per_covered_transition_witness :
    (find_sio_spw_matches [obsFix1]).filter (fun m => decide (m.obs = obsFix1)) =
      (SIO_V0_TRANSITIONS_GHZ.filter (fun t =>
          decide (obsFix1.min_freq_GHz < t.2) && decide (obsFix1.max_freq_GHz > t.2))).map
        (fun t => ({ obs := obsFix1, SiO_transition := t.1, SiO_freq_GHz := t.2 } : MatchRecord)) :=
  matcher_one_match_per_covered_transition [obsFix1] obsFix1 (by decide)

/-- C8: when no record's window strictly brackets any configured transition
frequency, the matcher returns an empty table and the pipeline tail returns
normally without writing any output file. -/
theorem empty_match_clean_termination (obs : List ObsRecord)
    (h : ∀ r ∈ obs, ∀ t ∈ SIO_V0_TRANSITIONS_GHZ,
      ¬(r.min_freq_GHz < t.2 ∧ t.2 < r.max_freq_GHz)) :
    find_sio_spw_matches obs = [] ∧ mainFrom obs = Except.ok [] := by
  have hempty : find_sio_spw_matches obs = [] := by
    unfold find_sio_spw_matches
    rw [List.flatten_eq_nil_iff]
    intro l hl
    rw [List.mem_map] at hl
    obtain ⟨t, ht, rfl⟩ := hl
    rw [List.map_eq_nil_iff, List.filter_eq_nil_iff]
    intro r hr
    simp only [Bool.and_eq_true, decide_eq_true_eq, not_and]
    intro h1 h2
    exact h r hr t ht ⟨h1, h2⟩
  refine ⟨hempty, ?_⟩
  unfold mainFrom
  rw [hempty]
  rfl

/-- Witness for C8: a record whose window (10, 20) GHz lies below every
transition produces no matches and no files. -/
theorem empty_match_clean_termination_witness :
    find_sio_spw_matches [obsFixLow] = [] ∧ mainFrom [obsFixLow] = Except.ok [] :=
  empty_match_clean_termination [obsFixLow] (by decide)

/-- C9: the pipeline from harmonized input to output files is
deterministic — two runs of the match, aggregate and write stages on equal
input data produce byte-identical outputs, in particular byte-identical
`sio_spw_matches.csv` and `sio_mous_summary.csv` contents. -/
theorem pipeline_deterministic (obs1 obs2 : List ObsRecord) (h : obs1 = obs2) :
    mainFrom obs1 = mainFrom obs2 ∧
      csvFiles (mainFrom obs1) = csvFiles (mainFrom obs2) := by
  subst h
  exact ⟨rfl, rfl⟩

/-- Witness for C9: two runs on the fixture input. -/
theorem pipeline_deterministic_witness :
    mainFrom [obsFix1] = mainFrom [obsFix1] ∧
      csvFiles (mainFrom [obsFix1]) = csvFiles (mainFrom [obsFix1]) :=
  pipeline_deterministic [obsFix1] [obsFix1] rfl

/-- C3: every row of the per-MOUS summary aggregates the full group of match
rows sharing its `MOUS_ID`: the source, project, band, transition-label and
transition-frequency fields are the sorted, deduplicated, comma-joined
unions of the group's string values (`join_unique` is exactly such a join,
as the second conjunct states); the minimum/maximum frequencies are the
least/greatest window bounds of the group; the angular resolution is the
least non-NaN resolution of the group (NaN only if the whole group is NaN).
Concretely, group M1 with windows (80, 90) and (85, 95) on sources AS 209
and GM Aur yields min 80, max 95 and source "AS 209, GM Aur". -/
theorem per_mous_aggregation_fields :
    (∀ df : List MatchRecord, ∀ row ∈ build_per_mous_table df,
      row.Source = join_unique ((mousGroup df row.MOUS_ID).map (fun m => m.obs.Source)) ∧
      row.Project = join_unique ((mousGroup df row.MOUS_ID).map (fun m => m.obs.project_code)) ∧
      row.ALMA_Band = join_unique ((mousGroup df row.MOUS_ID).map (fun m => m.obs.band_list)) ∧
      row.SiO_transitions =
        join_unique ((mousGroup df row.MOUS_ID).map (fun m => m.SiO_transition)) ∧
      row.SiO_freqs_GHz =
        join_unique ((mousGroup df row.MOUS_ID).map (fun m => pyFloatStr m.SiO_freq_GHz)) ∧
      (row.min_freq_GHz ∈ (mousGroup df row.MOUS_ID).map (fun m => m.obs.min_freq_GHz) ∧
        ∀ x ∈ (mousGroup df row.MOUS_ID).map (fun m => m.obs.min_freq_GHz),
          row.min_freq_GHz ≤ x) ∧
      (row.max_freq_GHz ∈ (mousGroup df row.MOUS_ID).map (fun m => m.obs.max_freq_GHz) ∧
        ∀ x ∈ (mousGroup df row.MOUS_ID).map (fun m => m.obs.max_freq_GHz),
          x ≤ row.max_freq_GHz) ∧
      ((row.ang_res_arcsec = none ↔
          ((mousGroup df row.MOUS_ID).map (fun m => m.obs.ang_res_arcsec)).filterMap id = []) ∧
        ∀ y, row.ang_res_arcsec = some y →
          y ∈ ((mousGroup df row.MOUS_ID).map (fun m => m.obs.ang_res_arcsec)).filterMap id ∧
          ∀ x ∈ ((mousGroup df row.MOUS_ID).map (fun m => m.obs.ang_res_arcsec)).filterMap id,
            y ≤ x)) ∧
    (∀ xs : List String, ∃ L, join_unique xs = String.intercalate ", " L ∧
      L.Pairwise (fun a b => pyStrLe a b = true) ∧ L.Nodup ∧ (∀ s, s ∈ L ↔ s ∈ xs)) ∧
    ((build_per_mous_table msFixC3).map
        (fun row => (row.Source, row.min_freq_GHz, row.max_freq_GHz)) =
      [("AS 209, GM Aur", mkRat 80 1, mkRat 95 1)]) := by
  refine ⟨?_, join_unique_spec, by decide⟩
  intro df row hrow
  obtain ⟨k, hk, rfl⟩ := mem_build_per_mous.mp hrow
  have hg : mousGroup df k ≠ [] := mousGroup_ne_nil hk
  refine ⟨rfl, rfl, rfl, rfl, rfl, ?_, ?_, ?_⟩
  · exact aggMin_spec (fun he => hg (List.map_eq_nil_iff.mp he))
  · exact aggMax_spec (fun he => hg (List.map_eq_nil_iff.mp he))
  · exact aggMinOpt_spec _

/-- Witness for C3: the source field of the aggregated fixture group. -/
theorem per_mous_aggregation_fields_witness :
    (mousRowFor msFixC3 "M1").Source =
      join_unique ((mousGroup msFixC3 ((mousRowFor msFixC3 "M1").MOUS_ID)).map
        (fun m => m.obs.Source)) :=
  (per_mous_aggregation_fields.1 msFixC3 (mousRowFor msFixC3 "M1") (by decide)).1

/-- C4: for every non-empty match table, the per-MOUS summary has exactly one
row per dataset-group identifier occurring in the input and no other rows:
the number of summary rows carrying identifier `k` is 1 when `k` occurs in
the input and 0 otherwise. -/
theorem per_mous_one_row_per_distinct_id
    (df : List MatchRecord) (_hdf : df ≠ []) (k : String) :
    ((build_per_mous_table df).filter (fun row => decide (row.MOUS_ID = k))).length =
      if k ∈ df.map (fun m => m.obs.MOUS_ID) then 1 else 0 := by
  have hmain : build_per_mous_table df =
      sortBy mousRowLe
        ((sortBy pyStrLe (df.map (fun m => m.obs.MOUS_ID)).dedup).map (mousRowFor df)) := rfl
  rw [hmain]
  rw [((sortBy_perm mousRowLe _).filter (fun row => decide (row.MOUS_ID = k))).length_eq]
  rw [List.filter_map]
  have hcomp : ((fun row : MousRow => decide (row.MOUS_ID = k)) ∘ mousRowFor df) =
      fun s => decide (s = k) := rfl
  rw [List.length_map, hcomp, List.filter_eq, List.length_replicate]
  have hnd : (sortBy pyStrLe (df.map (fun m => m.obs.MOUS_ID)).dedup).Nodup :=
    (sortBy_perm _ _).nodup_iff.mpr (List.nodup_dedup _)
  by_cases hk : k ∈ df.map (fun m => m.obs.MOUS_ID)
  · rw [if_pos hk]
    exact List.count_eq_one_of_mem hnd (mem_sortBy.mpr (List.mem_dedup.mpr hk))
  · rw [if_neg hk]
    exact List.count_eq_zero.mpr (fun hc => hk (List.mem_dedup.mp (mem_sortBy.mp hc)))

/-- Witness for C4: the fixture group M1 appears exactly once. -/
theorem per_mous_one_row_per_distinct_id_witness :
    ((build_per_mous_table msFixC3).filter (fun row => decide (row.MOUS_ID = "M1"))).length =
      if "M1" ∈ msFixC3.map (fun m => m.obs.MOUS_ID) then 1 else 0 :=
  per_mous_one_row_per_distinct_id msFixC3 (by decide) "M1"

/-- C10: every joined field of the per-MOUS summary — shown here for
`SiO_freqs_GHz` — is the comma-join of the deduplicated string
representations of the group values, sorted lexicographically as strings,
not numerically; concretely, a group covering 43.423864 and 130.268610 GHz
is joined as "130.26861, 43.423864", which lists the numerically larger
frequency first. -/
theorem joined_freqs_string_sorted :
    (∀ df : List MatchRecord, ∀ row ∈ build_per_mous_table df,
      ∃ L, row.SiO_freqs_GHz = String.intercalate ", " L ∧
        L.Pairwise (fun a b => pyStrLe a b = true) ∧ L.Nodup ∧
        (∀ s, s ∈ L ↔
          s ∈ (mousGroup df row.MOUS_ID).map (fun m => pyFloatStr m.SiO_freq_GHz))) ∧
    ((build_per_mous_table msFixC10).map (fun row => row.SiO_freqs_GHz) =
      ["130.26861, 43.423864"]) ∧
    pyFloatStr (mkRat 130268610 1000000) = "130.26861" ∧
    pyFloatStr (mkRat 43423864 1000000) = "43.423864" ∧
    (mkRat 43423864 1000000 : ℚ) < mkRat 130268610 1000000 := by
  refine ⟨?_, by decide, by decide, by decide, by decide⟩
  intro df row hrow
  obtain ⟨k, hk, rfl⟩ := mem_build_per_mous.mp hrow
  exact join_unique_spec ((mousGroup df k).map (fun m => pyFloatStr m.SiO_freq_GHz))

/-- Witness for C10: the joined frequency field of the fixture group. -/
theorem joined_freqs_string_sorted_witness :
    ∃ L, (mousRowFor msFixC10 "uid-A001-X1").SiO_freqs_GHz = String.intercalate ", " L ∧
      L.Pairwise (fun a b => pyStrLe a b = true) ∧ L.Nodup ∧
      (∀ s, s ∈ L ↔
        s ∈ (mousGroup msFixC10 ((mousRowFor msFixC10 "uid-A001-X1").MOUS_ID)).map
          (fun m => pyFloatStr m.SiO_freq_GHz)) :=
  joined_freqs_string_sorted.1 msFixC10 (mousRowFor msFixC10 "uid-A001-X1") (by decide)

/-- C6: the harmonizer raises a fatal schema error naming the missing column
whenever `min_freq_GHz` or `max_freq_GHz` is absent; since the columns are
checked in that order, an input missing both is reported for
`min_freq_GHz`. -/
theorem harmonize_missing_freq_error (df : Df) :
    (df.columns.contains "min_freq_GHz" = false →
      harmonize_columns df =
        Except.error "Missing required ObsCore column: min_freq_GHz") ∧
    (df.columns.contains "min_freq_GHz" = true →
      df.columns.contains "max_freq_GHz" = false →
      harmonize_columns df =
        Except.error "Missing required ObsCore column: max_freq_GHz") := by
  have hmin : ((harmonizeBand (harmonizeAngRes df)).columns.contains "min_freq_GHz") =
      df.columns.contains "min_freq_GHz" := by
    rw [contains_harmonizeBand (by decide), contains_harmonizeAngRes (by decide)]
  have hmax : ((harmonizeBand (harmonizeAngRes df)).columns.contains "max_freq_GHz") =
      df.columns.contains "max_freq_GHz" := by
    rw [contains_harmonizeBand (by decide), contains_harmonizeAngRes (by decide)]
  constructor
  · intro h
    simp only [harmonize_columns]
    rw [hmin, h]
    rfl
  · intro h1 h2
    simp only [harmonize_columns]
    rw [hmin, h1, hmax, h2]
    rfl

/-- Witness for C6: a table with no frequency columns at all is reported for
`min_freq_GHz`, and a table with only `min_freq_GHz` for `max_freq_GHz`. -/
theorem harmonize_missing_freq_error_witness :
    harmonize_columns dfFixNoFreq =
        Except.error "Missing required ObsCore column: min_freq_GHz" ∧
      harmonize_columns dfFixNoMax =
        Except.error "Missing required ObsCore column: max_freq_GHz" :=
  ⟨(harmonize_missing_freq_error dfFixNoFreq).1 (by decide),
   (harmonize_missing_freq_error dfFixNoMax).2 (by decide) (by decide)⟩

/-- C7: in the target-query stage a failed, `None` or empty per-target result
is skipped and the loop continues (the run equals the run restricted to the
producing targets), and the stage raises the exhaustion error exactly when
no target produced any rows. -/
theorem query_skip_and_exhaustion
    (q : String → Except Unit (Option Df)) (sources : List String) :
    (query_maps_sources q sources =
        Except.error "No observations returned for any MAPS source." ↔
      ∀ src ∈ sources, queryProducedRows q src = false) ∧
    query_maps_sources q sources =
      query_maps_sources q (sources.filter (queryProducedRows q)) := by
  have hstep_none : ∀ src, querySourceStep q src = none ↔
      queryProducedRows q src = false := by
    intro src
    unfold querySourceStep queryProducedRows
    cases hq : q src with
    | error e => simp
    | ok o =>
      cases o with
      | none => simp
      | some d => cases he : d.rows.isEmpty <;> simp [he]
  have hfil : sources.filterMap (querySourceStep q) =
      (sources.filter (queryProducedRows q)).filterMap (querySourceStep q) := by
    induction sources with
    | nil => rfl
    | cons s ss ih =>
      cases hp : queryProducedRows q s with
      | false =>
        rw [List.filter_cons]
        simp only [hp, Bool.false_eq_true, if_false]
        rw [List.filterMap_cons, (hstep_none s).mpr hp]
        exact ih
      | true =>
        rw [List.filter_cons]
        simp only [hp, if_true]
        rw [List.filterMap_cons, List.filterMap_cons]
        cases hs : querySourceStep q s with
        | none => rw [ih]
        | some d => rw [ih]
  constructor
  · unfold query_maps_sources
    cases hA : sources.filterMap (querySourceStep q) with
    | nil =>
      constructor
      · intro _ src hsrc
        exact (hstep_none src).mp (List.filterMap_eq_nil_iff.mp hA _ hsrc)
      · intro _
        rfl
    | cons d ds =>
      constructor
      · intro hcontra
        simp at hcontra
      · intro hall
        have hd : d ∈ sources.filterMap (querySourceStep q) := by
          rw [hA]
          exact List.mem_cons_self _ _
        obtain ⟨src, hsrc, hstep⟩ := List.mem_filterMap.mp hd
        rw [(hstep_none src).mpr (hall src hsrc)] at hstep
        cases hstep
  · unfold query_maps_sources
    rw [hfil]

/-- Witness for C7: a client returning `None` for every MAPS target makes the
stage fail with the exhaustion error. -/
theorem query_skip_and_exhaustion_witness :
    query_maps_sources qFixNone MAPS_SOURCES =
      Except.error "No observations returned for any MAPS source." :=
  (query_skip_and_exhaustion qFixNone MAPS_SOURCES).1.mpr (fun _ _ => rfl)

/-- C5 (counterexample): the claim that any absent column of the per-SPW
column set is simply omitted without error is false — an input table with
every per-SPW column except `project_code` makes the builder raise a
KeyError for the renamed sort key `Project`. -/
theorem per_spw_absent_column_counterexample :
    build_per_spw_table dfFixNoProject = Except.error "KeyError: Project" ∧
      "project_code" ∉ dfFixNoProject.columns :=
  ⟨rfl, by decide⟩

/-- C5 (amended): the per-SPW builder projects onto the fixed column set,
renaming the project and band columns, and sorts the rows ascending by
`(Source, Project, ALMA_Band, SiO_freq_GHz)`; a column of the set absent
from the input is omitted from the output without error provided it is not
one of the four sort-key-backing columns (`Source`, `project_code`,
`band_list`, `SiO_freq_GHz`) and the sort keys are orderable, while absence
of any sort-key-backing column raises a KeyError naming a sort key. -/
theorem per_spw_projection_amended :
    (∀ df : Df, spwSortBacking.all (fun c => df.columns.contains c) = true →
      spwSortable df = true →
      build_per_spw_table df =
        Except.ok { columns := (spwSelected df).columns,
                    rows := sortBy (rowKeyLe (spwSortKeys.map (spwSelected df).colIdx))
                      (spwSelected df).rows } ∧
      (spwSelected df).columns =
        (spwKeepCols.filter (fun c => df.columns.contains c)).map (renameCol spwRenames) ∧
      (sortBy (rowKeyLe (spwSortKeys.map (spwSelected df).colIdx)) (spwSelected df).rows).Perm
        (spwSelected df).rows ∧
      (sortBy (rowKeyLe (spwSortKeys.map (spwSelected df).colIdx))
          (spwSelected df).rows).Pairwise
        (fun r1 r2 => rowKeyLe (spwSortKeys.map (spwSelected df).colIdx) r1 r2 = true)) ∧
    (∀ df : Df, spwSortBacking.all (fun c => df.columns.contains c) = false →
      ∃ k, k ∈ spwSortKeys ∧ build_per_spw_table df = Except.error ("KeyError: " ++ k)) := by
  constructor
  · intro df hall hsort
    have hkeys : ∀ k ∈ spwSortKeys, (spwSelected df).columns.contains k = true := by
      intro k hk
      refine List.elem_iff.mpr ((mem_spwSelected_columns df k hk).mpr ?_)
      have hb : spwBacking k ∈ spwSortBacking := List.mem_map.mpr ⟨k, hk, rfl⟩
      exact List.elem_iff.mp (List.all_eq_true.mp hall _ hb)
    refine ⟨sort_values_ok hkeys hsort, rfl, sortBy_perm _ _, ?_⟩
    exact sortBy_pairwise (rowKeyLe_total _) (fun a b c h1 h2 => rowKeyLe_trans _ h1 h2) _
  · intro df hmiss
    obtain ⟨c, hcmem, hcfalse⟩ := List.all_eq_false.mp hmiss
    obtain ⟨k0, hk0, rfl⟩ := List.mem_map.mp hcmem
    have hp : (fun k => !((spwSelected df).columns.contains k)) k0 = true := by
      simp only [Bool.not_eq_true']
      cases hcc : (spwSelected df).columns.contains k0 with
      | false => rfl
      | true =>
        have hm : spwBacking k0 ∈ df.columns :=
          (mem_spwSelected_columns df k0 hk0).mp (List.elem_iff.mp hcc)
        exact absurd (List.elem_iff.mpr hm) hcfalse
    have hsome :
        (spwSortKeys.find? (fun k => !((spwSelected df).columns.contains k))).isSome = true :=
      List.find?_isSome.mpr ⟨k0, hk0, hp⟩
    obtain ⟨y, hy⟩ := Option.isSome_iff_exists.mp hsome
    refine ⟨y, List.mem_of_find?_eq_some hy, ?_⟩
    show (spwSelected df).sort_values spwSortKeys = _
    unfold Df.sort_values
    rw [hy]

/-- Witness for C5 (amended): the builder output on the full-schema match
table of the fixture record. -/
theorem per_spw_projection_amended_witness :
    build_per_spw_table (matchesToDf (find_sio_spw_matches [obsFix1])) =
      Except.ok
        { columns := (spwSelected (matchesToDf (find_sio_spw_matches [obsFix1]))).columns,
          rows := sortBy
            (rowKeyLe (spwSortKeys.map
              (spwSelected (matchesToDf (find_sio_spw_matches [obsFix1]))).colIdx))
            (spwSelected (matchesToDf (find_sio_spw_matches [obsFix1]))).rows } :=
  (per_spw_projection_amended.1 (matchesToDf (find_sio_spw_matches [obsFix1]))
    (by decide) (by decide)).1
